import Mathlib

/-!
Shallow embedding of the Tenant Configuration Resolution & Caching Engine
(`src/core/tenant-config.core.ts`, class `TenantConfigCore`).

JavaScript objects are modelled as association lists with shadowing
(earlier bindings win on lookup, so prepending a binding models assignment
and `b ++ a` models the spread `\x7b...a, ...b\x7d`).  Effects (HTTP, session
storage, console, DOM) are made explicit: the engine state carries the
session storage and the document body's class list, and every operation
returns a log of the external calls it performed.  `Date.now()` is passed
in as a parameter, and the HTTP client is an oracle giving the outcome of
the (at most two) GET requests a resolution performs.
-/

namespace TenantManager

/-- A JavaScript value as it appears in a tenant configuration object:
a string, a number, a nested object, or `undefined`. -/
inductive Val where
  | str (s : String)
  | num (n : Int)
  | obj (fields : List (String × Val))
  | undef

/-- A JavaScript object: an association list with shadowing. -/
abbrev Obj := List (String × Val)

/-- Lookup in an association list: first binding wins. -/
def alistFind {α : Type} : List (String × α) → String → Option α
  | [], _ => none
  | p :: l, k => if p.1 == k then some p.2 else alistFind l k

/-- Property read `o[k]`: first binding wins. -/
def getField (o : Obj) (k : String) : Option Val :=
  alistFind o k

/-- Property write `o[k] = v`, modelled by prepending (shadowing). -/
def setField (o : Obj) (k : String) (v : Val) : Obj :=
  (k, v) :: o

/-- The spread `\x7b ...a, ...b \x7d`: bindings of `b` shadow those of `a`.
`Object.assign(a, b)` has the same lookup semantics. -/
def spreadObj (a b : Obj) : Obj :=
  b ++ a

/-- JavaScript truthiness of a possibly-absent value: `undefined`, `""`
and `0` are falsy, every other string/number and every object is truthy. -/
def truthyVal : Option Val → Bool
  | none => false
  | some (.str s) => s ≠ ""
  | some (.num n) => n ≠ 0
  | some (.obj _) => true
  | some .undef => false

/-- JavaScript truthiness of an optional string (`undefined` and `""` falsy). -/
def truthyStr : Option String → Bool
  | none => false
  | some s => s ≠ ""

/-- String interpolation of a value, as in a template literal. -/
def valToString : Val → String
  | .str s => s
  | .num n => toString n
  | .obj _ => "[object Object]"
  | .undef => "undefined"

/-- Does the list contain the given (possibly empty) contiguous sublist? -/
def subListScan (needle : List Char) : List Char → Bool
  | [] => needle.isEmpty
  | h :: t => needle.isPrefixOf (h :: t) || subListScan needle t

/-- `hay.includes(needle)` on strings: substring containment. -/
def includesSub (hay needle : String) : Bool :=
  subListScan needle.data hay.data

/-- `s.endsWith(post)` on strings. -/
def strEndsWith (s post : String) : Bool :=
  List.isSuffixOf post.data s.data

/-- Uppercase hexadecimal digit of `n < 16`. -/
def hexDigit (n : Nat) : Char :=
  if n < 10 then Char.ofNat (48 + n) else Char.ofNat (55 + n)

/-- UTF-8 byte sequence of a code point. -/
def utf8Bytes (n : Nat) : List Nat :=
  if n < 128 then [n]
  else if n < 2048 then [192 + n / 64, 128 + n % 64]
  else if n < 65536 then [224 + n / 4096, 128 + (n / 64) % 64, 128 + n % 64]
  else [240 + n / 262144, 128 + (n / 4096) % 64, 128 + (n / 64) % 64, 128 + n % 64]

/-- Characters `encodeURIComponent` leaves unescaped. -/
def isUnescapedChar (c : Char) : Bool :=
  c.isAlphanum || c ∈ ['-', '_', '.', '!', '~', '*', Char.ofNat 39, '(', ')']

/-- JavaScript `encodeURIComponent`. -/
def encodeURIComponent (s : String) : String :=
  String.join (s.toList.map (fun c =>
    if isUnescapedChar c then String.singleton c
    else String.join ((utf8Bytes c.toNat).map (fun b =>
      "%" ++ String.mk [hexDigit (b / 16), hexDigit (b % 16)]))))

/-- A value held in session storage: a plain string (as written for the
identity keys), a cache entry that parses back into `\x7b data, timestamp \x7d`
(as written by `JSON.stringify` of an `ICachedConfig`), or a string that
fails to parse as JSON. -/
inductive StorageVal where
  | str (s : String)
  | entry (data : Obj) (timestamp : Int)
  | corrupt (raw : String)

/-- The browser's session storage, keyed by string. -/
abbrev Storage := List (String × StorageVal)

def lookupStorage (st : Storage) (k : String) : Option StorageVal :=
  alistFind st k

def removeStorage (st : Storage) (k : String) : Storage :=
  st.filter (fun p => !(p.1 == k))

def setStorage (st : Storage) (k : String) (v : StorageVal) : Storage :=
  (k, v) :: removeStorage st k

/-- One external call made by the engine, in order. -/
inductive Event where
  | httpGet (url : String)
  | storageSet (key : String) (value : StorageVal)
  | storageRemove (key : String)
  | logWarn (msg : String)
  | logError (msg : String)
  | bodyRemoveClass (cls : String)
  | bodyAddClass (cls : String)
  | loadStylesheet (href : String)

/-- A legal document returned by the legal-terms endpoint. -/
structure LegalDoc where
  Code : String
  Url : String
deriving DecidableEq, Repr

/-- The legal-terms endpoint's response body (`Results` may be absent). -/
structure LegalResponse where
  Results : Option (List LegalDoc)
deriving DecidableEq, Repr

/-- Oracle for the injected `IHttpClient`: outcome of the tenant-config GET
and of the legal-document GET (`none` = the promise rejects). -/
structure HttpBehavior where
  configResp : Option Obj
  legalResp : Option LegalResponse

/-- `ITenantInitOptions`. -/
structure ITenantInitOptions where
  redemptionPartnerCode : String
  subTenantId : Option String := none
  k8sUrl : Option String := none
  cacheTimeout : Option Int := none
deriving DecidableEq, Repr

/-- The mutable state of a `TenantConfigCore` instance together with the
ambient browser state it reads and writes (session storage, body classes). -/
structure TenantConfigState where
  currentTenant : String
  currentSubTenant : Option String
  tenantConfig : List (String × Obj)
  cacheTimeout : Int
  assetMapping : List (String × Obj)
  sessionStorage : Storage
  bodyClasses : List String

def lookupAssoc (m : List (String × Obj)) (k : String) : Option Obj :=
  alistFind m k

def removeAssoc (m : List (String × Obj)) (k : String) : List (String × Obj) :=
  m.filter (fun p => !(p.1 == k))

def setAssoc (m : List (String × Obj)) (k : String) (v : Obj) : List (String × Obj) :=
  (k, v) :: removeAssoc m k

/-- The built-in `assetMapping` table. -/
def initialAssetMapping : List (String × Obj) :=
  [("Privilege_Dufry",
     [("mode", .str "Privilege_Dufry-mode"),
      ("redemptionPartnerCode", .str "Privilege_Dufry"),
      ("partnerLogo", .str "assets/tenants/Privilege_Dufry/images/logo.png"),
      ("country", .str "US"),
      ("title", .str "Privilege Dufry"),
      ("currencySymbol", .str "$"),
      ("subTenants", .obj
        [("alipay", .obj
          [("mode", .str "Privilege_Dufry-alipay-mode"),
           ("redemptionPartnerCode", .str "Privilege_Dufry"),
           ("country", .str "CN"),
           ("title", .str "Privilege Dufry Alipay"),
           ("currencySymbol", .str "¥")])])]),
   ("default",
     [("mode", .str "default-mode"),
      ("redemptionPartnerCode", .str "default"),
      ("partnerLogo", .str "assets/tenants/default/images/logo.png"),
      ("country", .str "US"),
      ("title", .str "Default Tenant"),
      ("currencySymbol", .str "$")])]

/-- A fresh `TenantConfigCore` over given ambient browser state. -/
def mkInitialState (storage : Storage) (bodyClasses : List String) :
    TenantConfigState :=
  { currentTenant := "default"
    currentSubTenant := none
    tenantConfig := []
    cacheTimeout := 24 * 60 * 60 * 1000
    assetMapping := initialAssetMapping
    sessionStorage := storage
    bodyClasses := bodyClasses }

/-- `baseAssetConfig.subTenants?.[subTenantId]`. -/
def getSubTenant (base : Obj) (id : String) : Option Obj :=
  match getField base "subTenants" with
  | some (.obj subs) =>
      match alistFind subs id with
      | some (Val.obj o) => some o
      | _ => none
  | _ => none

/-- `isCacheValid`: `Date.now() - cachedConfig.timestamp < this.cacheTimeout`. -/
def isCacheValid (cacheTimeout : Int) (now : Int) (timestamp : Int) : Bool :=
  now - timestamp < cacheTimeout

/-- The session-storage key of a tenant's cache entry. -/
def tenantConfigKey (code : String) : String :=
  "tenant_config_" ++ code

/-- `getCachedConfig`: look up the stored entry; return its data when still
valid, delete it when expired, and swallow a parse failure with a warning. -/
def getCachedConfig (s : TenantConfigState) (now : Int) (code : String) :
    Option Obj × TenantConfigState × List Event :=
  match lookupStorage s.sessionStorage (tenantConfigKey code) with
  | none => (none, s, [])
  | some (.entry data ts) =>
      if isCacheValid s.cacheTimeout now ts then
        (some data, s, [])
      else
        (none,
         { s with sessionStorage :=
             removeStorage s.sessionStorage (tenantConfigKey code) },
         [.storageRemove (tenantConfigKey code)])
  | some _ =>
      (none, s, [.logWarn "Failed to parse cached config:"])

/-- JavaScript truthiness of an optional number (`undefined` and `0` falsy). -/
def truthyNum : Option Int → Bool
  | none => false
  | some n => n ≠ 0

/-- `fetchTenantConfigFromAPI`: with no k8s URL, fall back to the local
asset mapping.  Otherwise GET the remote config; on success merge it over
the baseline (with recomputed cache-busted image fields), apply a
registered sub-tenant override last, fetch legal documents best-effort,
store the result in memory and in session storage; on failure fall back
to the baseline without caching. -/
def fetchTenantConfigFromAPI (s : TenantConfigState) (http : HttpBehavior)
    (now : Int) (code : String) (k8sUrl : Option String)
    (subTenantId : Option String) :
    Option Obj × TenantConfigState × List Event :=
  if ¬ truthyStr k8sUrl then
    match lookupAssoc s.assetMapping code with
    | some base =>
        (some base, s, [.logWarn "K8s URL not provided, using local asset mapping only"])
    | none =>
        (none, s, [.logWarn "K8s URL not provided, using local asset mapping only"])
  else
    let url := k8sUrl.getD ""
    let assetsUrl := url ++ "/promotional-partner/api/promotionalpartner/"
      ++ encodeURIComponent code ++ "/assets"
    let timestamp := now
    let s1 := { s with tenantConfig := removeAssoc s.tenantConfig code }
    match http.configResp with
    | none =>
        (match lookupAssoc s1.assetMapping code with
         | some base =>
             (some base, s1,
              [.httpGet assetsUrl, .logError "API fetch failed. Using local asset mapping:"])
         | none =>
             (none, s1,
              [.httpGet assetsUrl, .logError "API fetch failed. Using local asset mapping:"]))
    | some config =>
        match lookupAssoc s1.assetMapping code with
        | none =>
            (none, s1,
             [.httpGet assetsUrl, .logError "API fetch failed. Using local asset mapping:"])
        | some baseAssetConfig =>
            let suffix := "?_t=" ++ toString timestamp
            let welcomeImg : Val :=
              if truthyVal (getField config "BrandImageUrl") then
                .str (valToString ((getField config "BrandImageUrl").getD .undef) ++ suffix)
              else (getField baseAssetConfig "partnerLogo").getD .undef
            let storeLogo : Val :=
              if truthyVal (getField config "LogoUrl") then
                .str (valToString ((getField config "LogoUrl").getD .undef) ++ suffix)
              else (getField baseAssetConfig "partnerLogo").getD .undef
            let partnerName : Val :=
              if truthyVal (getField config "Title") then
                (getField config "Title").getD .undef
              else (getField baseAssetConfig "title").getD .undef
            let merged0 :=
              setField (setField (setField (setField (spreadObj baseAssetConfig config)
                "welcomeImg" welcomeImg) "storeLogo" storeLogo)
                "partnerName" partnerName) "redemptionPartnerCode" (.str code)
            let merged1 :=
              if truthyStr subTenantId then
                match getSubTenant baseAssetConfig (subTenantId.getD "") with
                | some sub =>
                    setField (setField (spreadObj merged0 sub)
                      "currentSubTenant" (.str (subTenantId.getD "")))
                      "subTenantId" (.str (subTenantId.getD ""))
                | none => merged0
              else merged0
            let legalUrl := url ++ "/legalterms/api/voucher/publiclegaldocument?code="
              ++ encodeURIComponent code
            let (merged2, legalEvents) :=
              match http.legalResp with
              | none =>
                  (merged1,
                   [Event.httpGet legalUrl, Event.logWarn "Failed to fetch legal documents:"])
              | some resp =>
                  match resp.Results with
                  | some (d :: ds) =>
                      let termsDoc :=
                        ((d :: ds).find? (fun r => includesSub r.Code code)).getD d
                      (setField (setField merged1
                         "termsAndConditionsPath" (.str (termsDoc.Url ++ suffix)))
                         "privacyPolicyPath" (.str (d.Url ++ suffix)),
                       [Event.httpGet legalUrl])
                  | _ => (merged1, [Event.httpGet legalUrl])
            let s2 := { s1 with
              tenantConfig := setAssoc s1.tenantConfig code merged2,
              sessionStorage := setStorage s1.sessionStorage (tenantConfigKey code)
                (.entry merged2 timestamp) }
            (some merged2, s2,
             [Event.httpGet assetsUrl] ++ legalEvents
               ++ [Event.storageSet (tenantConfigKey code) (.entry merged2 timestamp)])

/-- `getModeClass`: `config.subTenantId ? mode-subTenantId : mode`. -/
def getModeClass (config : Obj) : String :=
  if truthyVal (getField config "subTenantId") then
    valToString ((getField config "mode").getD .undef) ++ "-"
      ++ valToString ((getField config "subTenantId").getD .undef)
  else valToString ((getField config "mode").getD .undef)

/-- `applyModeClass`: remove the classes ending in `-mode` from the body,
then add the config's mode class (`classList.add` does not duplicate an
existing token). -/
def applyModeClass (s : TenantConfigState) (config : Obj) :
    TenantConfigState × List Event :=
  let cls := getModeClass config
  let removed := s.bodyClasses.filter (fun c => strEndsWith c "-mode")
  let kept := s.bodyClasses.filter (fun c => !(strEndsWith c "-mode"))
  ({ s with bodyClasses := if kept.contains cls then kept else kept ++ [cls] },
   removed.map Event.bodyRemoveClass ++ [Event.bodyAddClass cls])

/-- The stylesheet path chosen by `loadTenantStyles`. -/
def tenantStylesHref (tenant : String) (subTenant : Option String) : String :=
  if truthyStr subTenant then
    "assets/tenants/" ++ tenant ++ "/" ++ subTenant.getD "" ++ "/styles/tenant.css"
  else
    "assets/tenants/" ++ tenant ++ "/styles/tenant.css"

/-- `loadTenantStyles`, as the external call it performs (the promise
resolves whether the stylesheet loads or errors). -/
def loadTenantStyles (tenant : String) (subTenant : Option String) : List Event :=
  [Event.loadStylesheet (tenantStylesHref tenant subTenant)]

/-- `initializeTenant` (options-object form; the string overload is the
same with its three positional arguments and no `cacheTimeout`), returning
additionally the config the call resolved (the local `config` variable),
which the void-returning method discards. -/
def initializeTenantAux (s : TenantConfigState) (http : HttpBehavior)
    (now : Int) (opts : ITenantInitOptions) :
    Option Obj × TenantConfigState × List Event :=
  let code := opts.redemptionPartnerCode
  let s0 :=
    if truthyNum opts.cacheTimeout then
      { s with cacheTimeout := opts.cacheTimeout.getD 0 }
    else s
  match lookupAssoc s0.assetMapping code with
  | none => (none, s0, [.logError ("Invalid tenant code: " ++ code)])
  | some base =>
      let validSubTenant :=
        if truthyStr opts.subTenantId then
          getSubTenant base (opts.subTenantId.getD "")
        else none
      let resolvedSubTenantId :=
        if validSubTenant.isSome then opts.subTenantId else none
      let r1 := getCachedConfig s0 now code
      let r2 :=
        match r1.1 with
        | some c => (some c, r1.2.1, ([] : List Event))
        | none => fetchTenantConfigFromAPI r1.2.1 http now code opts.k8sUrl resolvedSubTenantId
      match r2.1 with
      | none =>
          (none, r2.2.1,
           r1.2.2 ++ r2.2.2 ++ [.logError ("Failed to load config for tenant: " ++ code)])
      | some cfg =>
          let s3 := { r2.2.1 with currentTenant := code }
          let r4 :=
            match resolvedSubTenantId with
            | some id =>
                ({ s3 with
                    currentSubTenant := some id
                    sessionStorage := setStorage s3.sessionStorage "SubTenantId" (.str id) },
                 [Event.storageSet "SubTenantId" (.str id)])
            | none =>
                ({ s3 with
                    currentSubTenant := none
                    sessionStorage := removeStorage s3.sessionStorage "SubTenantId" },
                 [Event.storageRemove "SubTenantId"])
          let s5 := { r4.1 with
            sessionStorage := setStorage r4.1.sessionStorage "RedemptionPartnerCode" (.str code) }
          let r6 := applyModeClass s5 cfg
          (some cfg, r6.1,
           r1.2.2 ++ r2.2.2 ++ r4.2
             ++ [Event.storageSet "RedemptionPartnerCode" (.str code)]
             ++ r6.2 ++ loadTenantStyles code resolvedSubTenantId)

/-- The public `initializeTenant`, which returns `void`. -/
def initializeTenant (s : TenantConfigState) (http : HttpBehavior)
    (now : Int) (opts : ITenantInitOptions) : TenantConfigState × List Event :=
  (initializeTenantAux s http now opts).2

/-- `getCurrentTenant`. -/
def getCurrentTenant (s : TenantConfigState) : String :=
  s.currentTenant

/-- `getCurrentSubTenant`. -/
def getCurrentSubTenant (s : TenantConfigState) : Option String :=
  s.currentSubTenant

/-- `getConfig`: read a key from the fetched config of the current tenant,
falling back to the asset-mapping entry. -/
def getConfig (s : TenantConfigState) (key : String) : Option Val :=
  match lookupAssoc s.tenantConfig s.currentTenant with
  | some config => getField config key
  | none =>
      match lookupAssoc s.assetMapping s.currentTenant with
      | some config => getField config key
      | none => none

/-- `getAllConfig`: the fetched config of the current tenant, else a copy
of the asset-mapping entry. -/
def getAllConfig (s : TenantConfigState) : Option Obj :=
  match lookupAssoc s.tenantConfig s.currentTenant with
  | some config => some config
  | none => lookupAssoc s.assetMapping s.currentTenant

/-- `clearCache`: with a truthy tenant code, drop that tenant's storage
entry and in-memory config; with none, drop the storage entries of the
tenant codes present in the in-memory map and reset the map. -/
def clearCache (s : TenantConfigState) (tenantCode : Option String) :
    TenantConfigState × List Event :=
  if truthyStr tenantCode then
    let code := tenantCode.getD ""
    ({ s with
       sessionStorage := removeStorage s.sessionStorage (tenantConfigKey code),
       tenantConfig := removeAssoc s.tenantConfig code },
     [.storageRemove (tenantConfigKey code)])
  else
    ({ s with
       sessionStorage := s.tenantConfig.foldl
         (fun st p => removeStorage st (tenantConfigKey p.1)) s.sessionStorage,
       tenantConfig := [] },
     s.tenantConfig.map (fun p => Event.storageRemove (tenantConfigKey p.1)))

/-- `updateAssetMapping`. -/
def updateAssetMapping (s : TenantConfigState) (tenantCode : String)
    (assetConfig : Obj) : TenantConfigState :=
  { s with assetMapping := setAssoc s.assetMapping tenantCode assetConfig }

/-- Is an event an HTTP request? -/
def isHttpGet : Event → Bool
  | .httpGet _ => true
  | _ => false

/-- Number of HTTP requests in an event log. -/
def countHttpGets (evs : List Event) : Nat :=
  (evs.filter isHttpGet).length

/-- Is an event a write of the given session-storage key? -/
def isStorageSetOf (key : String) : Event → Bool
  | .storageSet k _ => k == key
  | _ => false

/-- Number of writes of the given session-storage key in an event log. -/
def countStorageSets (key : String) (evs : List Event) : Nat :=
  (evs.filter (isStorageSetOf key)).length


/-! ### Concrete states and runs used by the claim theorems -/

/-- A state whose session storage holds an unparsable cache entry. -/
def corruptState : TenantConfigState :=
  mkInitialState [(tenantConfigKey "Privilege_Dufry", StorageVal.corrupt "not json")] []

/-- The state left in session storage by a previous page's engine: a cache
entry exists in storage while the fresh engine's in-memory map is empty. -/
def staleStorageState : TenantConfigState :=
  mkInitialState [(tenantConfigKey "Privilege_Dufry", StorageVal.entry [] 0)] []

/-- One remote-capable initialization of `Privilege_Dufry` on a fresh engine
(successful config fetch, failing legal fetch). -/
def dufryInit1 : Option Obj × TenantConfigState × List Event :=
  initializeTenantAux (mkInitialState [] []) ⟨some [], none⟩ 1000
    { redemptionPartnerCode := "Privilege_Dufry", k8sUrl := some "http://k8s" }

/-- A second initialization immediately afterwards, without clearing. -/
def dufryInit2Uncleared : Option Obj × TenantConfigState × List Event :=
  initializeTenantAux dufryInit1.2.1 ⟨some [], none⟩ 2000
    { redemptionPartnerCode := "Privilege_Dufry", k8sUrl := some "http://k8s" }

/-- A second initialization after `clearCache("Privilege_Dufry")`. -/
def dufryInit2Cleared : Option Obj × TenantConfigState × List Event :=
  initializeTenantAux (clearCache dufryInit1.2.1 (some "Privilege_Dufry")).1
    ⟨some [], none⟩ 2000
    { redemptionPartnerCode := "Privilege_Dufry", k8sUrl := some "http://k8s" }

/-- A state holding a valid cache entry for `Privilege_Dufry`. -/
def cachedState : TenantConfigState :=
  mkInitialState
    [(tenantConfigKey "Privilege_Dufry",
      StorageVal.entry [("welcomeImg", Val.str "http://img?_t=500")] 500)] []

/-- The built-in baseline entry of the `default` tenant. -/
def defaultBase : Obj :=
  [("mode", .str "default-mode"),
   ("redemptionPartnerCode", .str "default"),
   ("partnerLogo", .str "assets/tenants/default/images/logo.png"),
   ("country", .str "US"),
   ("title", .str "Default Tenant"),
   ("currencySymbol", .str "$")]

/-- The built-in baseline entry of the `Privilege_Dufry` tenant. -/
def dufryBase : Obj :=
  (lookupAssoc initialAssetMapping "Privilege_Dufry").getD []

/-- The built-in `alipay` sub-tenant override of `Privilege_Dufry`. -/
def alipaySub : Obj :=
  (getSubTenant dufryBase "alipay").getD []

/-! ### Lookup lemmas for the association-list object model -/

theorem alistFind_cons {α : Type} (p : String × α) (l : List (String × α))
    (k : String) :
    alistFind (p :: l) k = if p.1 = k then some p.2 else alistFind l k := by
  by_cases h : p.1 = k <;> simp [alistFind, h]

theorem alistFind_append {α : Type} (a b : List (String × α)) (k : String) :
    alistFind (a ++ b) k =
      ((alistFind a k).rec (alistFind b k) (fun v => some v) : Option α) := by
  induction a with
  | nil => simp [alistFind]
  | cons p t ih =>
      by_cases h : p.1 = k <;> simp [alistFind_cons, h, ih]

theorem alistFind_filterNe {α : Type} (l : List (String × α)) (k k' : String) :
    alistFind (l.filter (fun p => !(p.1 == k))) k' =
      if k = k' then none else alistFind l k' := by
  induction l with
  | nil => by_cases h : k = k' <;> simp [alistFind, h]
  | cons p t ih =>
      by_cases hpk : p.1 = k
      · by_cases h : k = k' <;>
          simp_all [List.filter_cons, alistFind_cons]
      · by_cases hpk' : p.1 = k' <;>
          by_cases h : k = k' <;>
            simp_all [List.filter_cons, alistFind_cons]

theorem getField_setField (o : Obj) (k k' : String) (v : Val) :
    getField (setField o k v) k' = if k = k' then some v else getField o k' := by
  simp [getField, setField, alistFind_cons]

theorem getField_spreadObj (a b : Obj) (k : String) :
    getField (spreadObj a b) k =
      ((getField b k).rec (getField a k) (fun v => some v) : Option Val) := by
  simp [getField, spreadObj, alistFind_append]

theorem lookupStorage_removeStorage (st : Storage) (k k' : String) :
    lookupStorage (removeStorage st k) k' =
      if k = k' then none else lookupStorage st k' := by
  simp [lookupStorage, removeStorage, alistFind_filterNe]

theorem lookupStorage_setStorage (st : Storage) (k k' : String) (v : StorageVal) :
    lookupStorage (setStorage st k v) k' =
      if k = k' then some v else lookupStorage st k' := by
  by_cases h : k = k' <;>
    simp [setStorage, removeStorage, lookupStorage, alistFind_cons, alistFind_filterNe, h]

theorem lookupAssoc_removeAssoc (m : List (String × Obj)) (k k' : String) :
    lookupAssoc (removeAssoc m k) k' =
      if k = k' then none else lookupAssoc m k' := by
  simp [lookupAssoc, removeAssoc, alistFind_filterNe]

theorem lookupAssoc_setAssoc (m : List (String × Obj)) (k k' : String) (v : Obj) :
    lookupAssoc (setAssoc m k v) k' =
      if k = k' then some v else lookupAssoc m k' := by
  by_cases h : k = k' <;>
    simp [setAssoc, removeAssoc, lookupAssoc, alistFind_cons, alistFind_filterNe, h]

/-! ### Event-counting helpers -/

theorem countHttpGets_append (a b : List Event) :
    countHttpGets (a ++ b) = countHttpGets a + countHttpGets b := by
  simp [countHttpGets, List.filter_append]

theorem countHttpGets_cons (e : Event) (l : List Event) :
    countHttpGets (e :: l) = (if isHttpGet e then 1 else 0) + countHttpGets l := by
  by_cases h : isHttpGet e <;> simp [countHttpGets, List.filter_cons, h, Nat.add_comm]

theorem countHttpGets_map_bodyRemoveClass (l : List String) :
    countHttpGets (l.map Event.bodyRemoveClass) = 0 := by
  induction l with
  | nil => rfl
  | cons c t ih => simp_all [countHttpGets, List.filter_cons, isHttpGet]

/-! ### C1 -/

/-- C1 counterexample: for an unregistered tenant code given together with a
`cacheTimeout` option, `initializeTenant` does mutate an internal field of the
engine — the cache TTL is overwritten before the tenant-code validation — so
the claim that no internal field (including the cache TTL) changes is false. -/
theorem C1_counterexample_ttl_mutated_on_unknown_tenant :
    lookupAssoc (mkInitialState [] []).assetMapping "nope" = none
    ∧ (mkInitialState [] []).cacheTimeout = 86400000
    ∧ (initializeTenant (mkInitialState [] []) ⟨none, none⟩ 0
        { redemptionPartnerCode := "nope", cacheTimeout := some 5000 }).1.cacheTimeout
        = 5000 :=
  ⟨rfl, rfl, rfl⟩

/-- C1 (amended): for an unregistered tenant code, `initializeTenant` logs an
`Invalid tenant code` error and returns early without resolving a config: the
current tenant and sub-tenant, the in-memory config map, the session storage,
the registry and the body classes are all unchanged, and no request, storage
write or DOM change happens; the one exception is the cache TTL, which a
`cacheTimeout` passed in the options overwrites before validation.  The
failure is signalled only through the error log — the call itself returns
normally. -/
theorem C1_unknown_tenant_leaves_state_except_ttl
    (s : TenantConfigState) (http : HttpBehavior) (now : Int)
    (opts : ITenantInitOptions)
    (h : lookupAssoc s.assetMapping opts.redemptionPartnerCode = none) :
    (initializeTenantAux s http now opts).1 = none
    ∧ (initializeTenant s http now opts).2 =
        [Event.logError ("Invalid tenant code: " ++ opts.redemptionPartnerCode)]
    ∧ (initializeTenant s http now opts).1.currentTenant = s.currentTenant
    ∧ (initializeTenant s http now opts).1.currentSubTenant = s.currentSubTenant
    ∧ (initializeTenant s http now opts).1.tenantConfig = s.tenantConfig
    ∧ (initializeTenant s http now opts).1.sessionStorage = s.sessionStorage
    ∧ (initializeTenant s http now opts).1.assetMapping = s.assetMapping
    ∧ (initializeTenant s http now opts).1.bodyClasses = s.bodyClasses
    ∧ (initializeTenant s http now opts).1.cacheTimeout =
        (if truthyNum opts.cacheTimeout then opts.cacheTimeout.getD 0
         else s.cacheTimeout) := by
  unfold initializeTenant initializeTenantAux
  by_cases hc : truthyNum opts.cacheTimeout <;> simp [hc, h]

/-- C1 witness: the amended statement at a concrete unregistered tenant. -/
theorem C1_witness :
    lookupAssoc (mkInitialState [] []).assetMapping "nope" = none
    ∧ (initializeTenant (mkInitialState [] []) ⟨none, none⟩ 0
        { redemptionPartnerCode := "nope" }).1.currentTenant
        = (mkInitialState [] []).currentTenant :=
  ⟨rfl, (C1_unknown_tenant_leaves_state_except_ttl (mkInitialState [] [])
    ⟨none, none⟩ 0 { redemptionPartnerCode := "nope" } rfl).2.2.1⟩

/-! ### C6 -/

/-- C6 counterexample: a stored cache entry that fails to parse is treated as
a miss and a warning is logged, but — contrary to the claim — the corrupt
entry is NOT removed from the backing storage: it is still present after the
lookup, and no storage-remove call was issued. -/
theorem C6_counterexample_corrupt_entry_not_removed :
    (getCachedConfig corruptState 0 "Privilege_Dufry").1 = none
    ∧ (getCachedConfig corruptState 0 "Privilege_Dufry").2.2 =
        [Event.logWarn "Failed to parse cached config:"]
    ∧ (lookupStorage (getCachedConfig corruptState 0 "Privilege_Dufry").2.1.sessionStorage
        (tenantConfigKey "Privilege_Dufry")).isSome = true :=
  ⟨rfl, rfl, rfl⟩

/-- C6 (amended): an unparsable stored cache entry is non-fatal: the lookup
returns none (a cache miss) and logs a warning, but the corrupt entry is left
in the backing storage — the engine state, its session storage included, is
unchanged. -/
theorem C6_corrupt_entry_is_miss_logged_and_kept
    (s : TenantConfigState) (now : Int) (code raw : String)
    (h : lookupStorage s.sessionStorage (tenantConfigKey code) =
      some (StorageVal.corrupt raw)) :
    getCachedConfig s now code =
      (none, s, [Event.logWarn "Failed to parse cached config:"]) := by
  simp [getCachedConfig, h]

/-- C6 witness: the amended statement at the concrete corrupt state. -/
theorem C6_witness :
    lookupStorage corruptState.sessionStorage (tenantConfigKey "Privilege_Dufry")
        = some (StorageVal.corrupt "not json")
    ∧ getCachedConfig corruptState 5 "Privilege_Dufry"
        = (none, corruptState, [Event.logWarn "Failed to parse cached config:"]) :=
  ⟨rfl, C6_corrupt_entry_is_miss_logged_and_kept corruptState 5 "Privilege_Dufry"
    "not json" rfl⟩

/-! ### C7 -/

/-- C7 counterexample: with exactly the options of the claim's second call —
`redemptionPartnerCode: "Privilege_Dufry"`, `subTenantId: "alipay"` and no
k8s URL — the resolver takes the local-only path, which never applies the
sub-tenant override: the resolved `currencySymbol` is `"$"`, not the claimed
`"¥"`, and the body class applied is `Privilege_Dufry-mode`, not the claimed
`Privilege_Dufry-mode-alipay`. -/
theorem C7_counterexample_subtenant_call_yields_dollar :
    ((initializeTenantAux (mkInitialState [] []) ⟨none, none⟩ 0
        { redemptionPartnerCode := "Privilege_Dufry",
          subTenantId := some "alipay" }).1.bind
      (fun c => getField c "currencySymbol")) = some (Val.str "$")
    ∧ (initializeTenantAux (mkInitialState [] []) ⟨none, none⟩ 0
        { redemptionPartnerCode := "Privilege_Dufry",
          subTenantId := some "alipay" }).2.1.bodyClasses = ["Privilege_Dufry-mode"]
    ∧ ("$" : String) ≠ "¥" :=
  ⟨rfl, rfl, by decide⟩

/-- C7 (amended): with the built-in registry, `initializeTenant` with
`Privilege_Dufry` alone resolves `currencySymbol == "$"`.  With
`subTenantId: "alipay"`, the override is applied only on the remote path:
given a k8s URL and a successful remote fetch the resolved
`currencySymbol` is `"¥"` and the body receives the mode class
`Privilege_Dufry-alipay-mode-alipay` (the override's own `mode` suffixed with
the sub-tenant id); without a k8s URL the override is skipped, leaving
`currencySymbol == "$"` and body class `Privilege_Dufry-mode`. -/
theorem C7_dufry_alipay_scenario :
    ((initializeTenantAux (mkInitialState [] []) ⟨none, none⟩ 0
        { redemptionPartnerCode := "Privilege_Dufry" }).1.bind
      (fun c => getField c "currencySymbol")) = some (Val.str "$")
    ∧ ((initializeTenantAux (mkInitialState [] []) ⟨some [], none⟩ 0
        { redemptionPartnerCode := "Privilege_Dufry",
          subTenantId := some "alipay", k8sUrl := some "http://k8s" }).1.bind
      (fun c => getField c "currencySymbol")) = some (Val.str "¥")
    ∧ (initializeTenantAux (mkInitialState [] []) ⟨some [], none⟩ 0
        { redemptionPartnerCode := "Privilege_Dufry",
          subTenantId := some "alipay", k8sUrl := some "http://k8s" }).2.1.bodyClasses
        = ["Privilege_Dufry-alipay-mode-alipay"]
    ∧ ((initializeTenantAux (mkInitialState [] []) ⟨none, none⟩ 0
        { redemptionPartnerCode := "Privilege_Dufry",
          subTenantId := some "alipay" }).1.bind
      (fun c => getField c "currencySymbol")) = some (Val.str "$")
    ∧ (initializeTenantAux (mkInitialState [] []) ⟨none, none⟩ 0
        { redemptionPartnerCode := "Privilege_Dufry",
          subTenantId := some "alipay" }).2.1.bodyClasses = ["Privilege_Dufry-mode"] :=
  ⟨rfl, rfl, rfl, rfl, rfl⟩

/-! ### C9 -/

theorem lookupStorage_foldlRemove (m : List (String × Obj)) (st : Storage)
    (key : String) :
    lookupStorage (m.foldl (fun acc p => removeStorage acc (tenantConfigKey p.1)) st) key
      = if m.any (fun p => tenantConfigKey p.1 == key) then none
        else lookupStorage st key := by
  induction m generalizing st with
  | nil => simp
  | cons p t ih =>
      simp only [List.foldl_cons, List.any_cons]
      rw [ih]
      by_cases h : tenantConfigKey p.1 = key
      · by_cases h2 : t.any (fun p => tenantConfigKey p.1 == key) <;>
          simp [h, h2, lookupStorage_removeStorage]
      · by_cases h2 : t.any (fun p => tenantConfigKey p.1 == key) <;>
          simp [h, h2, lookupStorage_removeStorage]

theorem alistFind_isSome_any {α : Type} (m : List (String × α)) (k : String)
    (h : (alistFind m k).isSome = true) :
    m.any (fun p => tenantConfigKey p.1 == tenantConfigKey k) = true := by
  induction m with
  | nil => simp [alistFind] at h
  | cons p t ih =>
      by_cases hp : p.1 = k
      · simp [hp]
      · rw [alistFind_cons] at h
        simp only [hp, if_false] at h
        simp [ih h]

/-- C9 counterexample: `clearCache()` with no argument iterates over the
in-memory fetched-config map, not over the backing session storage, so a
cache entry present in session storage but not in the in-memory map (the
normal situation after a page reload) survives: no storage key is removed
and the entry is still there afterwards. -/
theorem C9_counterexample_storage_only_entry_survives :
    (clearCache staleStorageState none).2 = []
    ∧ (lookupStorage (clearCache staleStorageState none).1.sessionStorage
        (tenantConfigKey "Privilege_Dufry")).isSome = true :=
  ⟨rfl, rfl⟩

/-- C9 (amended): `clearCache()` with no argument resets the in-memory map
and clears the storage entries of exactly the tenant codes present in that
in-memory map — not of every tenant code with an entry in the backing
session storage.  `clearCache(code)` clears only that tenant's entry,
leaving every other storage key untouched.  The scenario holds:
initializing `Privilege_Dufry` performs two requests, a repeat
initialization moments later performs zero, and after
`clearCache("Privilege_Dufry")` the repeat performs a fresh remote fetch
(two requests) again. -/
theorem C9_clearCache_semantics :
    (∀ (s : TenantConfigState) (k : String),
      (clearCache s none).1.tenantConfig = []
      ∧ ((lookupAssoc s.tenantConfig k).isSome = true →
          lookupStorage (clearCache s none).1.sessionStorage (tenantConfigKey k)
            = none))
    ∧ (∀ (s : TenantConfigState) (code k : String), code ≠ "" →
        ((clearCache s (some code)).1.tenantConfig = removeAssoc s.tenantConfig code
        ∧ lookupStorage (clearCache s (some code)).1.sessionStorage
            (tenantConfigKey code) = none
        ∧ (k ≠ tenantConfigKey code →
            lookupStorage (clearCache s (some code)).1.sessionStorage k
              = lookupStorage s.sessionStorage k)))
    ∧ countHttpGets dufryInit1.2.2 = 2
    ∧ countHttpGets dufryInit2Uncleared.2.2 = 0
    ∧ countHttpGets dufryInit2Cleared.2.2 = 2 := by
  refine ⟨fun s k => ⟨by simp [clearCache, truthyStr], fun h => ?_⟩,
    fun s code k hcode => ⟨by simp [clearCache, truthyStr, hcode], ?_, fun hk => ?_⟩,
    by rfl, by rfl, by rfl⟩
  · simp only [clearCache, truthyStr]
    rw [if_neg (by simp)]
    simp only []
    rw [lookupStorage_foldlRemove]
    rw [if_pos (alistFind_isSome_any s.tenantConfig k h)]
  · simp [clearCache, truthyStr, hcode, lookupStorage_removeStorage]
  · simp [clearCache, truthyStr, hcode, lookupStorage_removeStorage, Ne.symm hk]

/-- C9 witness: the amended statement at concrete inputs. -/
theorem C9_witness :
    (lookupAssoc dufryInit1.2.1.tenantConfig "Privilege_Dufry").isSome = true
    ∧ lookupStorage (clearCache dufryInit1.2.1 none).1.sessionStorage
        (tenantConfigKey "Privilege_Dufry") = none
    ∧ ("Privilege_Dufry" : String) ≠ ""
    ∧ lookupStorage (clearCache dufryInit1.2.1 (some "Privilege_Dufry")).1.sessionStorage
        (tenantConfigKey "Privilege_Dufry") = none :=
  ⟨rfl, (C9_clearCache_semantics.1 dufryInit1.2.1 "Privilege_Dufry").2 rfl,
   by decide,
   (C9_clearCache_semantics.2.1 dufryInit1.2.1 "Privilege_Dufry" "x" (by decide)).2.1⟩

/-! ### C2 -/

theorem tenantConfigKey_head (code : String) :
    (tenantConfigKey code).data.head? = some ('t' : Char) := by
  show ("tenant_config_" ++ code).data.head? = some 't'
  rw [String.data_append]
  rfl

theorem tenantConfigKey_ne_subTenantIdKey (code : String) :
    tenantConfigKey code ≠ "SubTenantId" := by
  intro h
  have h2 : (tenantConfigKey code).data.head? = some 'S' := by rw [h]; rfl
  rw [tenantConfigKey_head code] at h2
  exact absurd h2 (by decide)

theorem tenantConfigKey_ne_redemptionKey (code : String) :
    tenantConfigKey code ≠ "RedemptionPartnerCode" := by
  intro h
  have h2 : (tenantConfigKey code).data.head? = some 'R' := by rw [h]; rfl
  rw [tenantConfigKey_head code] at h2
  exact absurd h2 (by decide)

theorem applyModeClass_events_not_http (st : TenantConfigState) (cfg : Obj)
    (a : Event) (ha : a ∈ (applyModeClass st cfg).2) : isHttpGet a = false := by
  simp only [applyModeClass, List.mem_append, List.mem_map,
    List.mem_singleton] at ha
  rcases ha with ⟨x, _, rfl⟩ | rfl <;> rfl

/-- C2: a valid (non-expired) cache entry short-circuits resolution: the
resolved config is exactly the stored entry's `data` — its cache-busting
timestamps included, nothing regenerated — the call performs zero HTTP
requests, and the stored cache entry itself is untouched. -/
theorem C2_cache_hit_short_circuits
    (s : TenantConfigState) (http : HttpBehavior) (now : Int)
    (code : String) (subT k8s : Option String) (data : Obj) (ts : Int)
    (hreg : (lookupAssoc s.assetMapping code).isSome = true)
    (hstore : lookupStorage s.sessionStorage (tenantConfigKey code) =
      some (StorageVal.entry data ts))
    (hvalid : isCacheValid s.cacheTimeout now ts = true) :
    (initializeTenantAux s http now
        { redemptionPartnerCode := code, subTenantId := subT, k8sUrl := k8s }).1
      = some data
    ∧ countHttpGets (initializeTenantAux s http now
        { redemptionPartnerCode := code, subTenantId := subT, k8sUrl := k8s }).2.2
      = 0
    ∧ lookupStorage (initializeTenantAux s http now
        { redemptionPartnerCode := code, subTenantId := subT,
          k8sUrl := k8s }).2.1.sessionStorage (tenantConfigKey code)
      = some (StorageVal.entry data ts) := by
  obtain ⟨base, hbase⟩ := Option.isSome_iff_exists.mp hreg
  have hcache : getCachedConfig s now code = (some data, s, []) := by
    simp [getCachedConfig, hstore, hvalid]
  refine ⟨?_, ?_, ?_⟩
  · unfold initializeTenantAux
    simp [truthyNum, hbase, hcache]
  · unfold initializeTenantAux
    simp [truthyNum, hbase, hcache]
    split <;>
        simp [countHttpGets_append, countHttpGets_cons, countHttpGets,
          loadTenantStyles] <;>
      exact ⟨rfl, rfl, fun a ha =>
        ha.elim (fun h => applyModeClass_events_not_http _ _ a h)
          (fun h => by subst h; rfl)⟩
  · unfold initializeTenantAux
    simp [truthyNum, hbase, hcache]
    split <;>
      simp [applyModeClass, lookupStorage_setStorage, lookupStorage_removeStorage,
        Ne.symm (tenantConfigKey_ne_subTenantIdKey code),
        Ne.symm (tenantConfigKey_ne_redemptionKey code), hstore]

/-- C2 witness: the theorem at a concrete cached state. -/
theorem C2_witness :
    (lookupAssoc cachedState.assetMapping "Privilege_Dufry").isSome = true
    ∧ lookupStorage cachedState.sessionStorage (tenantConfigKey "Privilege_Dufry")
        = some (StorageVal.entry [("welcomeImg", Val.str "http://img?_t=500")] 500)
    ∧ isCacheValid cachedState.cacheTimeout 1000 500 = true
    ∧ (initializeTenantAux cachedState ⟨some [], none⟩ 1000
        { redemptionPartnerCode := "Privilege_Dufry",
          k8sUrl := some "http://k8s" }).1
      = some [("welcomeImg", Val.str "http://img?_t=500")]
    ∧ countHttpGets (initializeTenantAux cachedState ⟨some [], none⟩ 1000
        { redemptionPartnerCode := "Privilege_Dufry",
          k8sUrl := some "http://k8s" }).2.2 = 0 :=
  ⟨rfl, rfl, rfl,
   (C2_cache_hit_short_circuits cachedState ⟨some [], none⟩ 1000 "Privilege_Dufry"
     none (some "http://k8s") [("welcomeImg", Val.str "http://img?_t=500")] 500
     rfl rfl rfl).1,
   (C2_cache_hit_short_circuits cachedState ⟨some [], none⟩ 1000 "Privilege_Dufry"
     none (some "http://k8s") [("welcomeImg", Val.str "http://img?_t=500")] 500
     rfl rfl rfl).2.1⟩

/-! ### C3 -/

/-- C3: when resolution takes the remote path and the config fetch fails,
the call still resolves — with the Static Registry baseline entry alone —
the failure is not propagated (the call completes and advances the current
tenant), and no cache entry is written: the tenant's cache key is still
absent afterwards, so a later call misses the cache and retries the
network.  Moreover — for any HTTP outcome — a session-storage write can
occur during the fetch only when the remote config fetch succeeded. -/
theorem C3_fetch_failure_degrades_to_baseline
    (s : TenantConfigState) (legalResp : Option LegalResponse) (now : Int)
    (code k8s : String) (subT : Option String) (base : Obj)
    (hreg : lookupAssoc s.assetMapping code = some base)
    (hmiss : lookupStorage s.sessionStorage (tenantConfigKey code) = none)
    (hk8s : k8s ≠ "") :
    (initializeTenantAux s ⟨none, legalResp⟩ now
        { redemptionPartnerCode := code, subTenantId := subT,
          k8sUrl := some k8s }).1 = some base
    ∧ (initializeTenantAux s ⟨none, legalResp⟩ now
        { redemptionPartnerCode := code, subTenantId := subT,
          k8sUrl := some k8s }).2.1.currentTenant = code
    ∧ lookupStorage (initializeTenantAux s ⟨none, legalResp⟩ now
        { redemptionPartnerCode := code, subTenantId := subT,
          k8sUrl := some k8s }).2.1.sessionStorage (tenantConfigKey code) = none
    ∧ (∀ (s2 : TenantConfigState) (http : HttpBehavior) (now2 : Int)
        (k8s2 subT2 : Option String) (k : String) (v : StorageVal),
        Event.storageSet k v ∈
            (fetchTenantConfigFromAPI s2 http now2 code k8s2 subT2).2.2 →
          http.configResp.isSome = true) := by
  have hcache : getCachedConfig s now code = (none, s, []) := by
    simp [getCachedConfig, hmiss]
  have hfetch : ∀ st : Option String,
      fetchTenantConfigFromAPI s ⟨none, legalResp⟩ now code (some k8s) st =
        (some base, { s with tenantConfig := removeAssoc s.tenantConfig code },
         [Event.httpGet (k8s ++ "/promotional-partner/api/promotionalpartner/"
            ++ encodeURIComponent code ++ "/assets"),
          Event.logError "API fetch failed. Using local asset mapping:"]) := by
    intro st
    simp [fetchTenantConfigFromAPI, truthyStr, hk8s, hreg]
  refine ⟨?_, ?_, ?_, ?_⟩
  · unfold initializeTenantAux
    simp [truthyNum, hreg, hcache, hfetch]
  · unfold initializeTenantAux
    simp [truthyNum, hreg, hcache, hfetch]
    split <;> simp [applyModeClass]
  · unfold initializeTenantAux
    simp [truthyNum, hreg, hcache, hfetch]
    split <;>
      simp [applyModeClass, lookupStorage_setStorage, lookupStorage_removeStorage,
        Ne.symm (tenantConfigKey_ne_subTenantIdKey code),
        Ne.symm (tenantConfigKey_ne_redemptionKey code),
        lookupAssoc_removeAssoc, hmiss]
  · intro s2 http now2 k8s2 subT2 k v hmem
    by_cases hk : truthyStr k8s2
    · cases hcfg : http.configResp with
      | none =>
          unfold fetchTenantConfigFromAPI at hmem
          rw [if_neg (by simp [hk])] at hmem
          rw [hcfg] at hmem
          cases hb : lookupAssoc s2.assetMapping code <;>
            simp [hb] at hmem
      | some cfg => simp [hcfg]
    · unfold fetchTenantConfigFromAPI at hmem
      rw [if_pos (by simp [hk])] at hmem
      cases hb : lookupAssoc s2.assetMapping code <;>
        simp [hb] at hmem

/-- C3 witness: the theorem at a concrete failing fetch. -/
theorem C3_witness :
    lookupAssoc (mkInitialState [] []).assetMapping "default" = some defaultBase
    ∧ lookupStorage (mkInitialState [] []).sessionStorage (tenantConfigKey "default")
        = none
    ∧ ("http://k8s" : String) ≠ ""
    ∧ (initializeTenantAux (mkInitialState [] []) ⟨none, none⟩ 7
        { redemptionPartnerCode := "default", subTenantId := none,
          k8sUrl := some "http://k8s" }).1 = some defaultBase
    ∧ lookupStorage (initializeTenantAux (mkInitialState [] []) ⟨none, none⟩ 7
        { redemptionPartnerCode := "default", subTenantId := none,
          k8sUrl := some "http://k8s" }).2.1.sessionStorage
        (tenantConfigKey "default") = none :=
  ⟨rfl, rfl, by decide,
   (C3_fetch_failure_degrades_to_baseline (mkInitialState [] []) none 7 "default"
     "http://k8s" none defaultBase rfl rfl (by decide)).1,
   (C3_fetch_failure_degrades_to_baseline (mkInitialState [] []) none 7 "default"
     "http://k8s" none defaultBase rfl rfl (by decide)).2.2.1⟩

/-! ### C4 -/

/-- C4: on the remote path, when the baseline has title `A`, the remote
config has title `B`, and the registered sub-tenant override has title `C`,
the resolved config's title is `C` — the override is applied last, over both
baseline and remote — and the config is tagged with the sub-tenant id (both
`subTenantId` and `currentSubTenant`). -/
theorem C4_subtenant_override_wins
    (s : TenantConfigState) (legalResp : Option LegalResponse) (now : Int)
    (code k8s id : String) (base sub cfg : Obj) (A B C : String)
    (hreg : lookupAssoc s.assetMapping code = some base)
    (hbaseTitle : getField base "title" = some (Val.str A))
    (hsub : getSubTenant base id = some sub)
    (hsubTitle : getField sub "title" = some (Val.str C))
    (hcfgTitle : getField cfg "title" = some (Val.str B))
    (hk8s : k8s ≠ "") (hid : id ≠ "") :
    ∃ res, (fetchTenantConfigFromAPI s ⟨some cfg, legalResp⟩ now code (some k8s)
        (some id)).1 = some res
      ∧ getField res "title" = some (Val.str C)
      ∧ getField res "subTenantId" = some (Val.str id)
      ∧ getField res "currentSubTenant" = some (Val.str id) := by
  unfold fetchTenantConfigFromAPI
  rw [if_neg (by simp [truthyStr, hk8s])]
  simp only [hreg]
  rcases legalResp with _ | ⟨_ | ⟨_ | ⟨d, ds⟩⟩⟩ <;>
    refine ⟨_, rfl, ?_, ?_, ?_⟩ <;>
      simp [truthyStr, hid, hsub, getField_setField, getField_spreadObj, hsubTitle]

/-- C4 witness: the theorem at the built-in registry with a remote title. -/
theorem C4_witness :
    lookupAssoc (mkInitialState [] []).assetMapping "Privilege_Dufry"
        = some dufryBase
    ∧ getField dufryBase "title" = some (Val.str "Privilege Dufry")
    ∧ getSubTenant dufryBase "alipay" = some alipaySub
    ∧ getField alipaySub "title" = some (Val.str "Privilege Dufry Alipay")
    ∧ ∃ res, (fetchTenantConfigFromAPI (mkInitialState [] [])
        ⟨some [("title", Val.str "B")], none⟩ 3 "Privilege_Dufry"
        (some "http://k8s") (some "alipay")).1 = some res
      ∧ getField res "title" = some (Val.str "Privilege Dufry Alipay")
      ∧ getField res "subTenantId" = some (Val.str "alipay")
      ∧ getField res "currentSubTenant" = some (Val.str "alipay") :=
  ⟨rfl, rfl, rfl, rfl,
   C4_subtenant_override_wins (mkInitialState [] []) none 3 "Privilege_Dufry"
     "http://k8s" "alipay" dufryBase alipaySub [("title", Val.str "B")]
     "Privilege Dufry" "B" "Privilege Dufry Alipay"
     rfl rfl rfl rfl rfl (by decide) (by decide)⟩

/-! ### C5 -/

theorem getCachedConfig_cacheTimeout (s : TenantConfigState) (now : Int)
    (code : String) :
    (getCachedConfig s now code).2.1.cacheTimeout = s.cacheTimeout := by
  unfold getCachedConfig
  repeat' split <;> try rfl

theorem fetchTenantConfigFromAPI_cacheTimeout (s : TenantConfigState)
    (http : HttpBehavior) (now : Int) (code : String)
    (k8s subT : Option String) :
    (fetchTenantConfigFromAPI s http now code k8s subT).2.1.cacheTimeout
      = s.cacheTimeout := by
  unfold fetchTenantConfigFromAPI
  rcases http with ⟨cfgR, legR⟩
  dsimp only
  split
  · split <;> rfl
  · rcases cfgR with _ | cfg
    · dsimp only
      split <;> rfl
    · dsimp only
      split
      · rfl
      · rcases legR with _ | ⟨_ | ⟨_ | ⟨d, ds⟩⟩⟩ <;> rfl

theorem initializeTenantAux_cacheTimeout (s : TenantConfigState)
    (http : HttpBehavior) (now : Int) (opts : ITenantInitOptions) :
    (initializeTenantAux s http now opts).2.1.cacheTimeout =
      if truthyNum opts.cacheTimeout then opts.cacheTimeout.getD 0
      else s.cacheTimeout := by
  unfold initializeTenantAux
  by_cases hc : truthyNum opts.cacheTimeout <;>
    simp only [hc, if_true, if_false] <;>
      repeat' split <;>
        simp [applyModeClass, getCachedConfig_cacheTimeout,
          fetchTenantConfigFromAPI_cacheTimeout]

/-- C5: a well-formed stored cache entry is served exactly when
`now - timestamp < ttl`; otherwise the lookup returns none and deletes the
underlying stored entry (and exactly then issues the storage removal).
The TTL defaults to 24 hours (86,400,000 ms) at construction, and a nonzero
`cacheTimeout` passed to `initializeTenant` overrides it for that and later
calls. -/
theorem C5_ttl_validity_default_and_override :
    (∀ (s : TenantConfigState) (now : Int) (code : String) (data : Obj) (ts : Int),
      lookupStorage s.sessionStorage (tenantConfigKey code)
          = some (StorageVal.entry data ts) →
        getCachedConfig s now code =
          (if now - ts < s.cacheTimeout then (some data, s, [])
           else (none,
             { s with sessionStorage :=
                 removeStorage s.sessionStorage (tenantConfigKey code) },
             [Event.storageRemove (tenantConfigKey code)])))
    ∧ (∀ (st : Storage) (bc : List String),
        (mkInitialState st bc).cacheTimeout = 86400000)
    ∧ ((24 * 60 * 60 * 1000 : Int) = 86400000)
    ∧ (∀ (s : TenantConfigState) (http : HttpBehavior) (now : Int)
        (opts : ITenantInitOptions) (c : Int),
        opts.cacheTimeout = some c → c ≠ 0 →
          (initializeTenant s http now opts).1.cacheTimeout = c) := by
  refine ⟨fun s now code data ts h => ?_, fun st bc => rfl, rfl,
    fun s http now opts c hc hnz => ?_⟩
  · by_cases hlt : now - ts < s.cacheTimeout <;>
      simp [getCachedConfig, h, isCacheValid, hlt]
  · unfold initializeTenant
    rw [initializeTenantAux_cacheTimeout]
    simp [truthyNum, hc, hnz]

/-- C5 witness: the theorem at concrete fresh and expired entries and a
concrete override. -/
theorem C5_witness :
    lookupStorage cachedState.sessionStorage (tenantConfigKey "Privilege_Dufry")
        = some (StorageVal.entry [("welcomeImg", Val.str "http://img?_t=500")] 500)
    ∧ getCachedConfig cachedState 99999999 "Privilege_Dufry" =
        (none,
         { cachedState with sessionStorage := removeStorage cachedState.sessionStorage (tenantConfigKey "Privilege_Dufry") },
         [Event.storageRemove (tenantConfigKey "Privilege_Dufry")])
    ∧ (initializeTenant (mkInitialState [] []) ⟨none, none⟩ 0
        { redemptionPartnerCode := "nope",
          cacheTimeout := some 5000 }).1.cacheTimeout = 5000 :=
  ⟨rfl,
   (C5_ttl_validity_default_and_override.1 cachedState 99999999 "Privilege_Dufry"
      [("welcomeImg", Val.str "http://img?_t=500")] 500 rfl).trans
     (if_neg (by decide)),
   C5_ttl_validity_default_and_override.2.2.2 (mkInitialState [] []) ⟨none, none⟩ 0
     { redemptionPartnerCode := "nope", cacheTimeout := some 5000 } 5000
     rfl (by decide)⟩

/-! ### C8 -/

/-- C8: on the remote path with a successful config fetch, when the
legal-document fetch succeeds with a non-empty `Results` list the resolved
config's terms-and-conditions URL is that of the first result whose `Code`
contains the tenant code (or of the first result when none matches), and the
privacy-policy URL is always that of the first result; both are suffixed
with this resolution's cache-busting timestamp.  When the legal-document
fetch fails, both fields are left unset (given no other source supplies
them) and the resolution still succeeds. -/
theorem C8_legal_document_selection
    (s : TenantConfigState) (now : Int) (code k8s : String)
    (subT : Option String) (cfg : Obj)
    (hreg : (lookupAssoc s.assetMapping code).isSome = true)
    (hk8s : k8s ≠ "") :
    (∀ (d : LegalDoc) (ds : List LegalDoc),
      ∃ res, (fetchTenantConfigFromAPI s ⟨some cfg, some ⟨some (d :: ds)⟩⟩ now code
          (some k8s) subT).1 = some res
        ∧ getField res "termsAndConditionsPath" =
            some (Val.str
              ((((d :: ds).find? (fun r => includesSub r.Code code)).getD d).Url
                ++ ("?_t=" ++ toString now)))
        ∧ getField res "privacyPolicyPath" =
            some (Val.str (d.Url ++ ("?_t=" ++ toString now))))
    ∧ (∀ base, lookupAssoc s.assetMapping code = some base →
        getField base "termsAndConditionsPath" = none →
        getField base "privacyPolicyPath" = none →
        getField cfg "termsAndConditionsPath" = none →
        getField cfg "privacyPolicyPath" = none →
        ∃ res, (fetchTenantConfigFromAPI s ⟨some cfg, none⟩ now code
            (some k8s) none).1 = some res
          ∧ getField res "termsAndConditionsPath" = none
          ∧ getField res "privacyPolicyPath" = none) := by
  obtain ⟨base, hbase⟩ := Option.isSome_iff_exists.mp hreg
  constructor
  · intro d ds
    unfold fetchTenantConfigFromAPI
    rw [if_neg (by simp [truthyStr, hk8s])]
    simp only [hbase]
    refine ⟨_, rfl, ?_, ?_⟩ <;> simp [getField_setField]
  · intro base2 hbase2 hb1 hb2 hc1 hc2
    rw [hbase] at hbase2
    cases hbase2
    unfold fetchTenantConfigFromAPI
    rw [if_neg (by simp [truthyStr, hk8s])]
    simp only [hbase]
    refine ⟨_, rfl, ?_, ?_⟩ <;>
      simp [truthyStr, getField_setField, getField_spreadObj, hb1, hb2, hc1, hc2]

/-- C8 witness: the theorem at a concrete two-document response in which the
second document's identifier contains the tenant code. -/
theorem C8_witness :
    (lookupAssoc (mkInitialState [] []).assetMapping "default").isSome = true
    ∧ (∃ res, (fetchTenantConfigFromAPI (mkInitialState [] [])
        ⟨some [], some ⟨some [⟨"PP", "http://legal/p"⟩,
          ⟨"TC_default", "http://legal/t"⟩]⟩⟩ 3 "default"
        (some "http://k8s") none).1 = some res
      ∧ getField res "termsAndConditionsPath" = some (Val.str "http://legal/t?_t=3")
      ∧ getField res "privacyPolicyPath" = some (Val.str "http://legal/p?_t=3")) :=
  ⟨rfl,
   (C8_legal_document_selection (mkInitialState [] []) 3 "default" "http://k8s"
      none [] rfl (by decide)).1
     ⟨"PP", "http://legal/p"⟩ [⟨"TC_default", "http://legal/t"⟩]⟩

/-! ### C10 -/

theorem getCachedConfig_tenantConfig (s : TenantConfigState) (now : Int)
    (code : String) :
    (getCachedConfig s now code).2.1.tenantConfig = s.tenantConfig := by
  unfold getCachedConfig
  repeat' split <;> try rfl

theorem getCachedConfig_assetMapping (s : TenantConfigState) (now : Int)
    (code : String) :
    (getCachedConfig s now code).2.1.assetMapping = s.assetMapping := by
  unfold getCachedConfig
  repeat' split <;> try rfl

/-- C10: `getConfig` and `getAllConfig` read the in-memory fetched config of
the current tenant and fall back to the Static Registry baseline entry when
none exists; and since only a successful remote fetch populates the
in-memory map, after a resolution served from the session-storage cache or
from the local-only path (no k8s URL) these accessors return the baseline
registry values, not the cached merged config. -/
theorem C10_accessors_fall_back_to_baseline :
    (∀ (st : TenantConfigState) (cfgM : Obj),
      lookupAssoc st.tenantConfig st.currentTenant = some cfgM →
        getAllConfig st = some cfgM
        ∧ ∀ key, getConfig st key = getField cfgM key)
    ∧ (∀ (st : TenantConfigState) (base : Obj),
      lookupAssoc st.tenantConfig st.currentTenant = none →
      lookupAssoc st.assetMapping st.currentTenant = some base →
        getAllConfig st = some base
        ∧ ∀ key, getConfig st key = getField base key)
    ∧ (∀ (s : TenantConfigState) (http : HttpBehavior) (now : Int)
        (code : String) (subT k8s : Option String) (base : Obj),
        lookupAssoc s.assetMapping code = some base →
        lookupAssoc s.tenantConfig code = none →
        ((∃ data ts, lookupStorage s.sessionStorage (tenantConfigKey code)
            = some (StorageVal.entry data ts)
            ∧ isCacheValid s.cacheTimeout now ts = true) ∨ k8s = none) →
          (initializeTenantAux s http now
            { redemptionPartnerCode := code, subTenantId := subT,
              k8sUrl := k8s }).2.1.currentTenant = code
          ∧ getAllConfig (initializeTenantAux s http now
              { redemptionPartnerCode := code, subTenantId := subT,
                k8sUrl := k8s }).2.1 = some base
          ∧ ∀ key, getConfig (initializeTenantAux s http now
              { redemptionPartnerCode := code, subTenantId := subT,
                k8sUrl := k8s }).2.1 key = getField base key) := by
  refine ⟨fun st cfgM h =>
      ⟨by simp [getAllConfig, h], fun key => by simp [getConfig, h]⟩,
    fun st base h1 h2 =>
      ⟨by simp [getAllConfig, h1, h2], fun key => by simp [getConfig, h1, h2]⟩,
    fun s http now code subT k8s base hreg hmem hpath => ?_⟩
  rcases hpath with ⟨data, ts, hstore, hvalid⟩ | hk8snone
  · have hcache : getCachedConfig s now code = (some data, s, []) := by
      simp [getCachedConfig, hstore, hvalid]
    refine ⟨?_, ?_, fun key => ?_⟩ <;>
      · unfold initializeTenantAux
        simp [truthyNum, hreg, hcache]
        split <;> simp [applyModeClass, getAllConfig, getConfig, hmem, hreg]
  · subst hk8snone
    refine ⟨?_, ?_, fun key => ?_⟩ <;>
      · unfold initializeTenantAux
        simp only [truthyNum, Bool.false_eq_true, if_false, hreg]
        cases hr1 : (getCachedConfig s now code).1 <;>
          simp [hr1, fetchTenantConfigFromAPI, truthyStr,
            getCachedConfig_assetMapping, hreg] <;>
            split <;>
              simp [applyModeClass, getAllConfig, getConfig,
                getCachedConfig_tenantConfig, getCachedConfig_assetMapping,
                hmem, hreg]

/-- C10 witness: the theorem at a concrete cache-served resolution. -/
theorem C10_witness :
    lookupAssoc cachedState.assetMapping "Privilege_Dufry" = some dufryBase
    ∧ lookupAssoc cachedState.tenantConfig "Privilege_Dufry" = none
    ∧ getAllConfig (initializeTenantAux cachedState ⟨none, none⟩ 1000
        { redemptionPartnerCode := "Privilege_Dufry", subTenantId := none,
          k8sUrl := none }).2.1 = some dufryBase :=
  ⟨rfl, rfl,
   (C10_accessors_fall_back_to_baseline.2.2 cachedState ⟨none, none⟩ 1000
      "Privilege_Dufry" none none dufryBase rfl rfl
      (Or.inl ⟨[("welcomeImg", Val.str "http://img?_t=500")], 500, rfl, rfl⟩)).2.1⟩
